import Mathlib

/-!
# NYC Airbnb prediction service — verification of the serving/training feature logic

Shallow embedding of the repository's two source files:

* `backend/app.py` — the serving side: `engineer_features`,
  `prepare_features_array`, and the two prediction endpoints
  `predict_price` and `predict_demand`.
* `ml_models/train_models.py` — the training side: its own
  `engineer_features` over a dataframe (one-hot dummies and a
  data-derived neighbourhood frequency table).

Numeric values are modelled as exact rationals (`ℚ`); Python dicts that
the code builds with a fixed literal key order are modelled as
association lists (`List (String × ℚ)`), preserving insertion order;
opaque trained models are arbitrary functions `List ℚ → ℚ`; the
persistence sink is an arbitrary function returning `Except` (an
exception from `insert` is the `.error` branch); JSON-body parsing is an
`Except String RawListing` parameter (a parse failure raised inside the
endpoint's `try` block is the `.error` branch).
-/

/-- A raw input mapping (`input_data` in `app.py`): the fields
`engineer_features` reads, each optional, mirroring `input_data.get(key, default)`
on an open JSON object.  Fields the code never reads are irrelevant to the
embedding. -/
structure RawListing where
  latitude : Option ℚ
  longitude : Option ℚ
  minimum_nights : Option ℚ
  number_of_reviews : Option ℚ
  reviews_per_month : Option ℚ
  calculated_host_listings_count : Option ℚ
  availability_365 : Option ℚ
  room_type : Option String
  neighbourhood_group : Option String
  neighbourhood : Option String
deriving DecidableEq

/-- The hardcoded serving-time neighbourhood frequency table
(`neighbourhood_freq` literal in `app.py`). -/
def neighbourhood_freq : List (String × ℚ) :=
  [("Harlem", 54/1000), ("Williamsburg", 78/1000), ("Upper West Side", 42/1000),
   ("Bedford-Stuyvesant", 76/1000), ("East Village", 35/1000), ("Brooklyn Heights", 20/1000),
   ("Astoria", 28/1000), ("Bushwick", 47/1000), ("Crown Heights", 31/1000), ("Upper East Side", 34/1000)]

/-- Serving-time `engineer_features(input_data)` from `app.py`, line for line:
defaults for every absent raw field, the three derived ratios (the
`reviews_density` division guarded by `number_of_reviews > 0`), the two
one-hot indicator groups, and the frequency-encoded neighbourhood with
fallback `0.01`.  The returned association list preserves the Python
dict's insertion order. -/
def engineer_features (input_data : RawListing) : List (String × ℚ) :=
  let latitude := input_data.latitude.getD (40758/1000)
  let longitude := input_data.longitude.getD (-739855/10000)
  let minimum_nights := input_data.minimum_nights.getD 1
  let number_of_reviews := input_data.number_of_reviews.getD 0
  let reviews_per_month := input_data.reviews_per_month.getD 0
  let calculated_host_listings_count := input_data.calculated_host_listings_count.getD 1
  let availability_365 := input_data.availability_365.getD 365
  let room_type := input_data.room_type.getD "Entire home/apt"
  let neighbourhood_group := input_data.neighbourhood_group.getD "Manhattan"
  let neighbourhood := input_data.neighbourhood.getD "Harlem"
  [("latitude", latitude),
   ("longitude", longitude),
   ("minimum_nights", minimum_nights),
   ("number_of_reviews", number_of_reviews),
   ("reviews_per_month", reviews_per_month),
   ("calculated_host_listings_count", calculated_host_listings_count),
   ("availability_365", availability_365),
   ("availability_ratio", availability_365 / 365),
   ("reviews_density", if number_of_reviews > 0 then reviews_per_month / number_of_reviews else 0),
   ("min_nights_ratio", minimum_nights / 365),
   ("room_type_Entire home/apt", if room_type = "Entire home/apt" then 1 else 0),
   ("room_type_Private room", if room_type = "Private room" then 1 else 0),
   ("room_type_Shared room", if room_type = "Shared room" then 1 else 0),
   ("neighbourhood_group_Bronx", if neighbourhood_group = "Bronx" then 1 else 0),
   ("neighbourhood_group_Brooklyn", if neighbourhood_group = "Brooklyn" then 1 else 0),
   ("neighbourhood_group_Manhattan", if neighbourhood_group = "Manhattan" then 1 else 0),
   ("neighbourhood_group_Queens", if neighbourhood_group = "Queens" then 1 else 0),
   ("neighbourhood_group_Staten Island", if neighbourhood_group = "Staten Island" then 1 else 0),
   ("neighbourhood_encoded", (neighbourhood_freq.lookup neighbourhood).getD (1/100))]

/-- The loop body of `prepare_features_array` in `app.py`:
`for i, col in enumerate(feature_columns): if col in features_dict:
feature_array[i] = features_dict[col]`, starting from `np.zeros`.
`i` is threaded explicitly instead of `enumerate`. -/
def fill_features (fd : List (String × ℚ)) : List String → Nat → List ℚ → List ℚ
  | [], _, arr => arr
  | col :: rest, i, arr =>
      fill_features fd rest (i + 1)
        (if (fd.lookup col).isSome then arr.set i ((fd.lookup col).getD 0) else arr)

/-- `prepare_features_array(features_dict)` from `app.py`.  The global
`feature_columns` is passed explicitly; `raise ValueError(...)` is the
`.error` branch.  The final `reshape(1, -1)` only changes the numpy
shape, not the entries, and is dropped. -/
def prepare_features_array (feature_columns : Option (List String))
    (features_dict : List (String × ℚ)) : Except String (List ℚ) :=
  match feature_columns with
  | none => Except.error "Feature columns not loaded"
  | some cols => Except.ok (fill_features features_dict cols 0 (List.replicate cols.length 0))

/-- The slice of `metadata.json` the endpoints read:
`metadata['price_model']['version']` and `metadata['demand_model']['version']`. -/
structure Metadata where
  price_version : String
  demand_version : String
deriving DecidableEq

/-- The module-level state of `app.py` set by `load_models()`: each
artifact independently present or absent.  A trained model is opaque, a
function from the feature vector to a scalar
(`model.predict(feature_array)[0]`). -/
structure ServerState where
  price_model : Option (List ℚ → ℚ)
  demand_model : Option (List ℚ → ℚ)
  feature_columns : Option (List String)
  metadata : Option Metadata

/-- The `prediction_record` dict built by `predict_price` and handed to
`supabase.table('predictions').insert`. -/
structure PriceRecord where
  prediction_type : String
  predicted_value : ℚ
  confidence_score : ℚ
  model_version : String
  input_features : List (String × ℚ)
deriving DecidableEq

/-- The JSON body `predict_price` returns on success. -/
structure PriceResult where
  prediction_id : Option Nat
  predicted_price : ℚ
  confidence : ℚ
  model_version : String
deriving DecidableEq

/-- The `prediction_record` dict built by `predict_demand`. -/
structure DemandRecord where
  prediction_type : String
  predicted_class : String
  confidence_score : ℚ
  model_version : String
  input_features : List (String × ℚ)
deriving DecidableEq

/-- The JSON body `predict_demand` returns on success. -/
structure DemandResult where
  prediction_id : Option Nat
  predicted_class : String
  probability : ℚ
  model_version : String
deriving DecidableEq

/-- An HTTP response as the endpoints produce it: `jsonify(result), 200`
or `jsonify({'error': ...}), <status>`. -/
structure Response (α : Type) where
  status : Nat
  body : Option α
  error : Option String

/-- `predict_price` from `app.py`.  Parameters stand for the effects the
endpoint consumes: `parsed` is the outcome of `request.get_json()`
(a parse failure raised inside the `try` is `.error`, caught by the outer
`except` which returns status 500); `conf` is the value drawn by
`np.random.uniform(0.75, 0.95)`; `sink` is the outcome of the supabase
`insert` for the record it is given (an exception is `.error`, caught by
the inner `except` which sets `prediction_id = None`).  The second
component of the result is the `prediction_record` passed to the sink
(`none` when the endpoint failed before building it), exposed so that
theorems can speak about the persisted record. -/
def predict_price (st : ServerState) (parsed : Except String RawListing) (conf : ℚ)
    (sink : PriceRecord → Except String (Option Nat)) :
    Response PriceResult × Option PriceRecord :=
  match st.price_model with
  | none => (⟨500, none, some "Price model not loaded"⟩, none)
  | some model =>
    match parsed with
    | Except.error e => (⟨500, none, some e⟩, none)
    | Except.ok input_data =>
      let features_dict := engineer_features input_data
      match prepare_features_array st.feature_columns features_dict with
      | Except.error e => (⟨500, none, some e⟩, none)
      | Except.ok feature_array =>
        let predicted_price := max 10 (model feature_array)
        let confidence := conf
        let prediction_record : PriceRecord :=
          ⟨"price", predicted_price, confidence,
           (match st.metadata with
            | some m => m.price_version
            | none => "1.0"),
           features_dict⟩
        let prediction_id : Option Nat :=
          match sink prediction_record with
          | Except.ok idOpt => idOpt
          | Except.error _ => none
        let result : PriceResult :=
          ⟨prediction_id, predicted_price, confidence,
           (match st.metadata with
            | some m => "RandomForestRegressor-v" ++ m.price_version
            | none => "RandomForestRegressor-v1.0")⟩
        (⟨200, some result, none⟩, some prediction_record)

/-- `predict_demand` from `app.py`, with the same conventions as
`predict_price`.  `np.clip(probability, 0.0, 1.0)` is `min 1 (max 0 _)`;
there is no random draw in this endpoint. -/
def predict_demand (st : ServerState) (parsed : Except String RawListing)
    (sink : DemandRecord → Except String (Option Nat)) :
    Response DemandResult × Option DemandRecord :=
  match st.demand_model with
  | none => (⟨500, none, some "Demand model not loaded"⟩, none)
  | some model =>
    match parsed with
    | Except.error e => (⟨500, none, some e⟩, none)
    | Except.ok input_data =>
      let features_dict := engineer_features input_data
      match prepare_features_array st.feature_columns features_dict with
      | Except.error e => (⟨500, none, some e⟩, none)
      | Except.ok feature_array =>
        let probability := min 1 (max 0 (model feature_array))
        let predicted_class := if probability > 1/2 then "high-demand" else "low-demand"
        let prediction_record : DemandRecord :=
          ⟨"demand", predicted_class, probability,
           (match st.metadata with
            | some m => m.demand_version
            | none => "1.0"),
           features_dict⟩
        let prediction_id : Option Nat :=
          match sink prediction_record with
          | Except.ok idOpt => idOpt
          | Except.error _ => none
        let result : DemandResult :=
          ⟨prediction_id, predicted_class, probability,
           (match st.metadata with
            | some m => "LightGBMClassifier-v" ++ m.demand_version
            | none => "LightGBMClassifier-v1.0")⟩
        (⟨200, some result, none⟩, some prediction_record)

/-- A row of the training dataframe, restricted to the columns the
training-side `engineer_features` in `train_models.py` reads.  The
generated training data has every field present. -/
structure TrainRow where
  room_type : String
  neighbourhood_group : String
  neighbourhood : String
  minimum_nights : ℚ
  number_of_reviews : ℚ
  reviews_per_month : ℚ
  availability_365 : ℚ
deriving DecidableEq

/-- `df['neighbourhood'].value_counts(normalize=True)` from
`train_models.py`: the observed relative frequency of a neighbourhood
name in the training dataframe. -/
def value_counts_normalize (df : List TrainRow) (name : String) : ℚ :=
  ((df.filter (fun r => r.neighbourhood = name)).length : ℚ) / (df.length : ℚ)

/-- The training-side `neighbourhood_encoded` column of
`train_models.py` (`df['neighbourhood'].map(neighbourhood_freq)` where
`neighbourhood_freq` is the data-derived `value_counts` table), at one row. -/
def train_neighbourhood_encoded (df : List TrainRow) (r : TrainRow) : ℚ :=
  value_counts_normalize df r.neighbourhood

/-- The training-side one-hot indicator from
`pd.get_dummies(df['room_type'], prefix='room_type')`: the column for
category `v`, at one row (dummy columns exist for each value occurring
in the data; each holds 1 exactly when the row has that value). -/
def train_room_type_dummy (r : TrainRow) (v : String) : ℚ :=
  if r.room_type = v then 1 else 0

/-- The training-side one-hot indicator from
`pd.get_dummies(df['neighbourhood_group'], prefix='neighbourhood_group')`. -/
def train_neighbourhood_group_dummy (r : TrainRow) (v : String) : ℚ :=
  if r.neighbourhood_group = v then 1 else 0

/-! ## Helper lemmas -/

theorem lookup_reviews_density (raw : RawListing) :
    (engineer_features raw).lookup "reviews_density" =
      some (if raw.number_of_reviews.getD 0 > 0
            then raw.reviews_per_month.getD 0 / raw.number_of_reviews.getD 0 else 0) := by
  simp [engineer_features, List.lookup]

theorem lookup_neighbourhood_encoded (raw : RawListing) :
    (engineer_features raw).lookup "neighbourhood_encoded" =
      some ((neighbourhood_freq.lookup (raw.neighbourhood.getD "Harlem")).getD (1/100)) := by
  simp [engineer_features, List.lookup]

theorem lookup_room_type (raw : RawListing) (v : String)
    (hv : v = "Entire home/apt" ∨ v = "Private room" ∨ v = "Shared room") :
    (engineer_features raw).lookup ("room_type_" ++ v) =
      some (if raw.room_type.getD "Entire home/apt" = v then 1 else 0) := by
  rcases hv with h | h | h <;> subst h <;> simp [engineer_features, List.lookup]

theorem lookup_neighbourhood_group (raw : RawListing) (v : String)
    (hv : v = "Bronx" ∨ v = "Brooklyn" ∨ v = "Manhattan" ∨ v = "Queens" ∨
          v = "Staten Island") :
    (engineer_features raw).lookup ("neighbourhood_group_" ++ v) =
      some (if raw.neighbourhood_group.getD "Manhattan" = v then 1 else 0) := by
  rcases hv with h | h | h | h | h <;> subst h <;> simp [engineer_features, List.lookup]

theorem set_append_cons (pre : List ℚ) (x v : ℚ) (suf : List ℚ) :
    (pre ++ x :: suf).set pre.length v = pre ++ v :: suf := by
  induction pre with
  | nil => rfl
  | cons a t ih => simp [List.set, ih]

theorem fill_features_eq (fd : List (String × ℚ)) (cols : List String) :
    ∀ pre : List ℚ,
      fill_features fd cols pre.length (pre ++ List.replicate cols.length 0) =
        pre ++ cols.map (fun c => ((fd.lookup c).getD 0)) := by
  induction cols with
  | nil => intro pre; simp [fill_features]
  | cons c rest ih =>
    intro pre
    rw [List.length_cons, List.replicate_succ]
    simp only [fill_features]
    cases hl : fd.lookup c with
    | none =>
      have h2 := ih (pre ++ [(0 : ℚ)])
      simp only [List.length_append, List.length_singleton, List.append_assoc,
        List.singleton_append] at h2
      simp only [hl, Option.isSome_none, Bool.false_eq_true, if_false]
      rw [h2]
      simp [hl]
    | some v =>
      have h2 := ih (pre ++ [v])
      simp only [List.length_append, List.length_singleton, List.append_assoc,
        List.singleton_append] at h2
      simp only [hl, Option.isSome_some, if_true, Option.getD_some, set_append_cons]
      rw [h2]
      simp [hl]

theorem prepare_features_array_some (fd : List (String × ℚ)) (cols : List String) :
    prepare_features_array (some cols) fd =
      Except.ok (cols.map (fun c => ((fd.lookup c).getD 0))) := by
  have h := fill_features_eq fd cols []
  simpa [prepare_features_array] using h

/-! ## Claim theorems -/

/-- The key list the serving feature engineer produces, in dict insertion
order: 7 copied raw fields, 3 derived ratios, 3 room-type indicators,
5 neighbourhood-group indicators, and the frequency-encoded neighbourhood. -/
def feature_names : List String :=
  ["latitude", "longitude", "minimum_nights", "number_of_reviews", "reviews_per_month",
   "calculated_host_listings_count", "availability_365", "availability_ratio",
   "reviews_density", "min_nights_ratio", "room_type_Entire home/apt",
   "room_type_Private room", "room_type_Shared room", "neighbourhood_group_Bronx",
   "neighbourhood_group_Brooklyn", "neighbourhood_group_Manhattan",
   "neighbourhood_group_Queens", "neighbourhood_group_Staten Island",
   "neighbourhood_encoded"]

/-- C10: for every raw input mapping, the mapping returned by
`engineer_features` has exactly the same fixed key set of 19 feature
names, in the same order; the keys never depend on the input. -/
theorem engineer_features_keys (raw : RawListing) :
    (engineer_features raw).map Prod.fst = feature_names ∧ feature_names.length = 19 := by
  constructor
  · simp [engineer_features, feature_names]
  · rfl

/-- C2: `prepare_features_array` fails (with the `SchemaUnavailable`
condition, `ValueError("Feature columns not loaded")`) exactly when no
feature schema is loaded; given a loaded schema it always succeeds, the
vector length equals the schema length, and position `i` holds the value
of the feature named at schema position `i`, or `0` when that name is
absent from the engineered feature set. -/
theorem prepare_features_array_spec (fc : Option (List String)) (fd : List (String × ℚ)) :
    (fc = none → prepare_features_array fc fd = Except.error "Feature columns not loaded") ∧
    (∀ cols, fc = some cols →
      ∃ v, prepare_features_array fc fd = Except.ok v ∧
        v.length = cols.length ∧
        ∀ i : Nat, v[i]? = (cols[i]?).map (fun c => ((fd.lookup c).getD 0))) := by
  constructor
  · intro h; subst h; rfl
  · intro cols h; subst h
    refine ⟨cols.map (fun c => ((fd.lookup c).getD 0)), prepare_features_array_some fd cols,
      by simp, ?_⟩
    intro i
    simp [List.getElem?_map]

/-- Witness for C2 at a concrete two-name schema, one name present in the
feature set and one absent. -/
theorem prepare_features_array_spec_witness :
    ∃ v, prepare_features_array (some ["latitude", "unknown_feature"]) [("latitude", 2)] =
        Except.ok v ∧
      v.length = (["latitude", "unknown_feature"] : List String).length ∧
      ∀ i : Nat, v[i]? = ((["latitude", "unknown_feature"] : List String)[i]?).map
          (fun c => ((([(("latitude" : String), (2 : ℚ))]).lookup c).getD 0)) :=
  (prepare_features_array_spec (some ["latitude", "unknown_feature"]) [("latitude", 2)]).2
    ["latitude", "unknown_feature"] rfl

/-- C6: `engineer_features` is a total function of the raw input (pure,
deterministic and never failing by construction of the embedding — every
branch is a guarded `if` or a defaulted lookup).  Moreover: each absent
raw field is replaced by its documented default (engineering an input is
the same as engineering it with that field set to the documented
default); `reviews_density` is `0` whenever the (defaulted)
`number_of_reviews` is `0` regardless of `reviews_per_month`; and any
neighbourhood name absent from the frequency table encodes to `0.01`. -/
theorem engineer_features_total_defaults (raw : RawListing) :
    (raw.number_of_reviews.getD 0 = 0 →
      (engineer_features raw).lookup "reviews_density" = some 0) ∧
    (∀ n, raw.neighbourhood = some n → neighbourhood_freq.lookup n = none →
      (engineer_features raw).lookup "neighbourhood_encoded" = some (1/100)) ∧
    (raw.latitude = none → engineer_features raw =
      engineer_features { raw with latitude := some (40758/1000) }) ∧
    (raw.longitude = none → engineer_features raw =
      engineer_features { raw with longitude := some (-739855/10000) }) ∧
    (raw.minimum_nights = none → engineer_features raw =
      engineer_features { raw with minimum_nights := some 1 }) ∧
    (raw.number_of_reviews = none → engineer_features raw =
      engineer_features { raw with number_of_reviews := some 0 }) ∧
    (raw.reviews_per_month = none → engineer_features raw =
      engineer_features { raw with reviews_per_month := some 0 }) ∧
    (raw.calculated_host_listings_count = none → engineer_features raw =
      engineer_features { raw with calculated_host_listings_count := some 1 }) ∧
    (raw.availability_365 = none → engineer_features raw =
      engineer_features { raw with availability_365 := some 365 }) ∧
    (raw.room_type = none → engineer_features raw =
      engineer_features { raw with room_type := some "Entire home/apt" }) ∧
    (raw.neighbourhood_group = none → engineer_features raw =
      engineer_features { raw with neighbourhood_group := some "Manhattan" }) ∧
    (raw.neighbourhood = none → engineer_features raw =
      engineer_features { raw with neighbourhood := some "Harlem" }) := by
  refine ⟨?_, ?_, ?_, ?_, ?_, ?_, ?_, ?_, ?_, ?_, ?_, ?_⟩
  · intro h
    rw [lookup_reviews_density]
    simp [h]
  · intro n hn hfreq
    rw [lookup_neighbourhood_encoded]
    simp [hn, hfreq]
  all_goals intro h
  all_goals simp [engineer_features, h]

/-- Witness for C6: a raw input with `number_of_reviews` absent (default
`0`) and an out-of-table neighbourhood name. -/
theorem engineer_features_total_defaults_witness :
    (engineer_features ⟨none, none, none, none, some 3, none, none, none, none,
        some "Nowhereville"⟩).lookup "reviews_density" = some 0 ∧
    (engineer_features ⟨none, none, none, none, some 3, none, none, none, none,
        some "Nowhereville"⟩).lookup "neighbourhood_encoded" = some (1/100) := by
  have h := engineer_features_total_defaults
    ⟨none, none, none, none, some 3, none, none, none, none, some "Nowhereville"⟩
  exact ⟨h.1 rfl, h.2.1 "Nowhereville" rfl rfl⟩

/-- The room-type enumeration of the serving one-hot group. -/
def room_type_categories : List String :=
  ["Entire home/apt", "Private room", "Shared room"]

/-- The neighbourhood-group enumeration of the serving one-hot group. -/
def neighbourhood_group_categories : List String :=
  ["Bronx", "Brooklyn", "Manhattan", "Queens", "Staten Island"]

theorem room_one_hot (raw : RawListing) (c0 : String)
    (h : raw.room_type.getD "Entire home/apt" = c0) (hc0 : c0 ∈ room_type_categories) :
    (engineer_features raw).lookup ("room_type_" ++ c0) = some 1 ∧
    ∀ c, c ∈ room_type_categories → c ≠ c0 →
      (engineer_features raw).lookup ("room_type_" ++ c) = some 0 := by
  constructor
  · rw [lookup_room_type raw c0 (by simpa [room_type_categories] using hc0)]
    simp [h]
  · intro c hc hne
    rw [lookup_room_type raw c (by simpa [room_type_categories] using hc)]
    have hne0 : c0 ≠ c := fun hcc => hne hcc.symm
    simp [h, hne0]

theorem room_one_hot_none (raw : RawListing)
    (h : raw.room_type.getD "Entire home/apt" ∉ room_type_categories) :
    ∀ c, c ∈ room_type_categories →
      (engineer_features raw).lookup ("room_type_" ++ c) = some 0 := by
  intro c hc
  rw [lookup_room_type raw c (by simpa [room_type_categories] using hc)]
  have hne : raw.room_type.getD "Entire home/apt" ≠ c := fun hh => h (hh ▸ hc)
  simp [hne]

theorem ng_one_hot (raw : RawListing) (c0 : String)
    (h : raw.neighbourhood_group.getD "Manhattan" = c0)
    (hc0 : c0 ∈ neighbourhood_group_categories) :
    (engineer_features raw).lookup ("neighbourhood_group_" ++ c0) = some 1 ∧
    ∀ c, c ∈ neighbourhood_group_categories → c ≠ c0 →
      (engineer_features raw).lookup ("neighbourhood_group_" ++ c) = some 0 := by
  constructor
  · rw [lookup_neighbourhood_group raw c0 (by simpa [neighbourhood_group_categories] using hc0)]
    simp [h]
  · intro c hc hne
    rw [lookup_neighbourhood_group raw c (by simpa [neighbourhood_group_categories] using hc)]
    have hne0 : c0 ≠ c := fun hcc => hne hcc.symm
    simp [h, hne0]

theorem ng_one_hot_none (raw : RawListing)
    (h : raw.neighbourhood_group.getD "Manhattan" ∉ neighbourhood_group_categories) :
    ∀ c, c ∈ neighbourhood_group_categories →
      (engineer_features raw).lookup ("neighbourhood_group_" ++ c) = some 0 := by
  intro c hc
  rw [lookup_neighbourhood_group raw c (by simpa [neighbourhood_group_categories] using hc)]
  have hne : raw.neighbourhood_group.getD "Manhattan" ≠ c := fun hh => h (hh ▸ hc)
  simp [hne]

/-- C7: in each one-hot group, when the (possibly defaulted) categorical
value is in the defined enumeration exactly one indicator is `1` and all
the others are `0` (mutual exclusivity); for any value outside the
enumeration every indicator of the group is `0`. -/
theorem one_hot_exclusive (raw : RawListing) :
    ((raw.room_type.getD "Entire home/apt" ∈ room_type_categories →
      ∃ c0, c0 ∈ room_type_categories ∧
        (engineer_features raw).lookup ("room_type_" ++ c0) = some 1 ∧
        ∀ c, c ∈ room_type_categories → c ≠ c0 →
          (engineer_features raw).lookup ("room_type_" ++ c) = some 0) ∧
     (raw.room_type.getD "Entire home/apt" ∉ room_type_categories →
      ∀ c, c ∈ room_type_categories →
        (engineer_features raw).lookup ("room_type_" ++ c) = some 0)) ∧
    ((raw.neighbourhood_group.getD "Manhattan" ∈ neighbourhood_group_categories →
      ∃ c0, c0 ∈ neighbourhood_group_categories ∧
        (engineer_features raw).lookup ("neighbourhood_group_" ++ c0) = some 1 ∧
        ∀ c, c ∈ neighbourhood_group_categories → c ≠ c0 →
          (engineer_features raw).lookup ("neighbourhood_group_" ++ c) = some 0) ∧
     (raw.neighbourhood_group.getD "Manhattan" ∉ neighbourhood_group_categories →
      ∀ c, c ∈ neighbourhood_group_categories →
        (engineer_features raw).lookup ("neighbourhood_group_" ++ c) = some 0)) := by
  refine ⟨⟨?_, room_one_hot_none raw⟩, ?_, ng_one_hot_none raw⟩
  · intro hmem
    obtain ⟨h1, h2⟩ := room_one_hot raw _ rfl hmem
    exact ⟨_, hmem, h1, h2⟩
  · intro hmem
    obtain ⟨h1, h2⟩ := ng_one_hot raw _ rfl hmem
    exact ⟨_, hmem, h1, h2⟩

/-- Witness for C7: a raw input with `room_type = "Private room"` and an
out-of-enumeration `neighbourhood_group`. -/
theorem one_hot_exclusive_witness :
    (∃ c0, c0 ∈ room_type_categories ∧
      (engineer_features ⟨none, none, none, none, none, none, none, some "Private room",
          some "Middle-earth", none⟩).lookup ("room_type_" ++ c0) = some 1 ∧
      ∀ c, c ∈ room_type_categories → c ≠ c0 →
        (engineer_features ⟨none, none, none, none, none, none, none, some "Private room",
            some "Middle-earth", none⟩).lookup ("room_type_" ++ c) = some 0) ∧
    (∀ c, c ∈ neighbourhood_group_categories →
      (engineer_features ⟨none, none, none, none, none, none, none, some "Private room",
          some "Middle-earth", none⟩).lookup ("neighbourhood_group_" ++ c) = some 0) := by
  have h := one_hot_exclusive ⟨none, none, none, none, none, none, none, some "Private room",
    some "Middle-earth", none⟩
  exact ⟨h.1.1 (by simp [room_type_categories]),
    h.2.2 (by simp [neighbourhood_group_categories])⟩

/-- C3: with the demand model and the feature schema loaded, for every
raw input `predict_demand` succeeds (status 200), its probability is the
classifier's raw score clamped to `[0,1]`, and the class label is
`"high-demand"` exactly when the clamped score is strictly greater than
`0.5`; a clamped score of exactly `0.5` yields `"low-demand"`. -/
theorem predict_demand_threshold (st : ServerState) (model : List ℚ → ℚ) (cols : List String)
    (hm : st.demand_model = some model) (hc : st.feature_columns = some cols)
    (raw : RawListing) (sink : DemandRecord → Except String (Option Nat)) :
    ∃ r, ((predict_demand st (Except.ok raw) sink).1).status = 200 ∧
      ((predict_demand st (Except.ok raw) sink).1).body = some r ∧
      r.probability =
        min 1 (max 0 (model (cols.map (fun c =>
          (((engineer_features raw).lookup c).getD 0))))) ∧
      0 ≤ r.probability ∧ r.probability ≤ 1 ∧
      (r.predicted_class = if 1/2 < r.probability then "high-demand" else "low-demand") ∧
      (r.probability = 1/2 → r.predicted_class = "low-demand") := by
  simp only [predict_demand, hm, hc, prepare_features_array_some]
  refine ⟨_, trivial, rfl, rfl, ?_, ?_, rfl, ?_⟩
  · exact le_min (by norm_num) (le_max_left 0 _)
  · exact min_le_left 1 _
  · intro hhalf
    dsimp only at hhalf ⊢
    rw [hhalf]
    simp

/-- Witness for C3 with an opaque classifier returning exactly `0.5`:
the tie is labelled `"low-demand"`. -/
theorem predict_demand_threshold_witness :
    ∃ r, ((predict_demand ⟨none, some (fun _ => 1/2), some ["latitude"], none⟩
        (Except.ok ⟨none, none, none, none, none, none, none, none, none, none⟩)
        (fun _ => Except.ok none)).1).status = 200 ∧
      ((predict_demand ⟨none, some (fun _ => 1/2), some ["latitude"], none⟩
        (Except.ok ⟨none, none, none, none, none, none, none, none, none, none⟩)
        (fun _ => Except.ok none)).1).body = some r ∧
      r.probability =
        min 1 (max 0 ((fun _ => (1 : ℚ)/2) ((["latitude"] : List String).map (fun c =>
          (((engineer_features ⟨none, none, none, none, none, none, none, none, none,
              none⟩).lookup c).getD 0))))) ∧
      0 ≤ r.probability ∧ r.probability ≤ 1 ∧
      (r.predicted_class = if 1/2 < r.probability then "high-demand" else "low-demand") ∧
      (r.probability = 1/2 → r.predicted_class = "low-demand") :=
  predict_demand_threshold ⟨none, some (fun _ => 1/2), some ["latitude"], none⟩
    (fun _ => 1/2) ["latitude"] rfl rfl
    ⟨none, none, none, none, none, none, none, none, none, none⟩ (fun _ => Except.ok none)

/-- C4: with the price model and the feature schema loaded, whatever
scalar the opaque regression model produces, the predicted price is at
least `10` — both in the returned body and in the record handed to the
persistence sink. -/
theorem predict_price_floor (st : ServerState) (model : List ℚ → ℚ) (cols : List String)
    (hm : st.price_model = some model) (hc : st.feature_columns = some cols)
    (raw : RawListing) (conf : ℚ) (sink : PriceRecord → Except String (Option Nat)) :
    (∀ r, ((predict_price st (Except.ok raw) conf sink).1).body = some r →
      10 ≤ r.predicted_price) ∧
    (∀ rec, (predict_price st (Except.ok raw) conf sink).2 = some rec →
      10 ≤ rec.predicted_value) := by
  simp only [predict_price, hm, hc, prepare_features_array_some]
  constructor
  · rintro r hr
    cases hr
    exact le_max_left 10 _
  · rintro rec hrec
    cases hrec
    exact le_max_left 10 _

/-- Witness for C4 with a regression model that always outputs `-100`:
the served price is still `10`. -/
theorem predict_price_floor_witness :
    10 ≤ ((((predict_price ⟨some (fun _ => -100), none, some ["latitude"], none⟩
        (Except.ok ⟨none, none, none, none, none, none, none, none, none, none⟩)
        (8/10) (fun _ => Except.ok none)).1).body.getD ⟨none, 0, 0, ""⟩).predicted_price) := by
  have h := (predict_price_floor ⟨some (fun _ => -100), none, some ["latitude"], none⟩
      (fun _ => -100) ["latitude"] rfl rfl
      ⟨none, none, none, none, none, none, none, none, none, none⟩
      (8/10) (fun _ => Except.ok none)).1
  have hb : (((predict_price ⟨some (fun _ => -100), none, some ["latitude"], none⟩
      (Except.ok ⟨none, none, none, none, none, none, none, none, none, none⟩)
      (8/10) (fun _ => Except.ok none)).1).body) =
      some ⟨none, max 10 (-100), 8/10, "RandomForestRegressor-v1.0"⟩ := by
    simp [predict_price, prepare_features_array_some]
  rw [hb]
  exact h _ hb

/-- C5: if the persistence insert fails with any exception, neither
endpoint propagates the failure: the response is still a success
(status 200) with a null `prediction_id`, and the predicted value /
class label is exactly the one produced with a succeeding sink. -/
theorem persistence_failure_isolated (st : ServerState) (pmodel dmodel : List ℚ → ℚ)
    (cols : List String) (hp : st.price_model = some pmodel)
    (hd : st.demand_model = some dmodel) (hc : st.feature_columns = some cols)
    (raw : RawListing) (conf : ℚ) (e1 e2 : String)
    (sinkP : PriceRecord → Except String (Option Nat))
    (sinkD : DemandRecord → Except String (Option Nat)) :
    (((predict_price st (Except.ok raw) conf (fun _ => Except.error e1)).1).status = 200 ∧
     ∃ r, ((predict_price st (Except.ok raw) conf (fun _ => Except.error e1)).1).body = some r ∧
       r.prediction_id = none ∧
       ∀ r2, ((predict_price st (Except.ok raw) conf sinkP).1).body = some r2 →
         r.predicted_price = r2.predicted_price ∧ r.confidence = r2.confidence ∧
         r.model_version = r2.model_version) ∧
    (((predict_demand st (Except.ok raw) (fun _ => Except.error e2)).1).status = 200 ∧
     ∃ r, ((predict_demand st (Except.ok raw) (fun _ => Except.error e2)).1).body = some r ∧
       r.prediction_id = none ∧
       ∀ r2, ((predict_demand st (Except.ok raw) sinkD).1).body = some r2 →
         r.predicted_class = r2.predicted_class ∧ r.probability = r2.probability ∧
         r.model_version = r2.model_version) := by
  obtain ⟨pm, dm, fc, md⟩ := st
  dsimp only at hp hd hc
  subst hp; subst hd; subst hc
  simp only [predict_price, predict_demand, prepare_features_array_some, Option.some.injEq]
  refine ⟨⟨trivial, _, rfl, rfl, ?_⟩, trivial, _, rfl, rfl, ?_⟩
  · intro r2 hr2
    cases hr2
    exact ⟨rfl, rfl, rfl⟩
  · intro r2 hr2
    cases hr2
    exact ⟨rfl, rfl, rfl⟩

/-- Witness for C5 at a concrete state, input and sinks. -/
theorem persistence_failure_isolated_witness :
    (((predict_price ⟨some (fun _ => 50), some (fun _ => 1), some ["latitude"], none⟩
        (Except.ok ⟨none, none, none, none, none, none, none, none, none, none⟩) (8/10)
        (fun _ => Except.error "db down")).1).status = 200 ∧
     ∃ r, ((predict_price ⟨some (fun _ => 50), some (fun _ => 1), some ["latitude"], none⟩
        (Except.ok ⟨none, none, none, none, none, none, none, none, none, none⟩) (8/10)
        (fun _ => Except.error "db down")).1).body = some r ∧
       r.prediction_id = none ∧
       ∀ r2, ((predict_price ⟨some (fun _ => 50), some (fun _ => 1), some ["latitude"], none⟩
          (Except.ok ⟨none, none, none, none, none, none, none, none, none, none⟩) (8/10)
          (fun _ => Except.ok (some 7))).1).body = some r2 →
         r.predicted_price = r2.predicted_price ∧ r.confidence = r2.confidence ∧
         r.model_version = r2.model_version) ∧
    (((predict_demand ⟨some (fun _ => 50), some (fun _ => 1), some ["latitude"], none⟩
        (Except.ok ⟨none, none, none, none, none, none, none, none, none, none⟩)
        (fun _ => Except.error "db down")).1).status = 200 ∧
     ∃ r, ((predict_demand ⟨some (fun _ => 50), some (fun _ => 1), some ["latitude"], none⟩
        (Except.ok ⟨none, none, none, none, none, none, none, none, none, none⟩)
        (fun _ => Except.error "db down")).1).body = some r ∧
       r.prediction_id = none ∧
       ∀ r2, ((predict_demand ⟨some (fun _ => 50), some (fun _ => 1), some ["latitude"], none⟩
          (Except.ok ⟨none, none, none, none, none, none, none, none, none, none⟩)
          (fun _ => Except.ok (some 7))).1).body = some r2 →
         r.predicted_class = r2.predicted_class ∧ r.probability = r2.probability ∧
         r.model_version = r2.model_version) :=
  persistence_failure_isolated
    ⟨some (fun _ => 50), some (fun _ => 1), some ["latitude"], none⟩
    (fun _ => 50) (fun _ => 1) ["latitude"] rfl rfl rfl
    ⟨none, none, none, none, none, none, none, none, none, none⟩ (8/10)
    "db down" "db down" (fun _ => Except.ok (some 7)) (fun _ => Except.ok (some 7))

/-- C9: the two prediction operations are idempotent for a fixed state,
input and sink: everything the claim lists — predicted value / class
label, model version, and the persisted feature set — is unchanged
between two runs, even when the randomized confidence draw of
`predict_price` differs between the runs; `predict_demand` draws no
randomness at all, so its two runs coincide entirely. -/
theorem prediction_idempotent (st : ServerState) (parsed : Except String RawListing)
    (c1 c2 : ℚ) (sinkP : PriceRecord → Except String (Option Nat))
    (sinkD : DemandRecord → Except String (Option Nat)) :
    (((predict_price st parsed c1 sinkP).1).status =
      ((predict_price st parsed c2 sinkP).1).status) ∧
    (Option.map PriceResult.predicted_price ((predict_price st parsed c1 sinkP).1).body =
      Option.map PriceResult.predicted_price ((predict_price st parsed c2 sinkP).1).body) ∧
    (Option.map PriceResult.model_version ((predict_price st parsed c1 sinkP).1).body =
      Option.map PriceResult.model_version ((predict_price st parsed c2 sinkP).1).body) ∧
    (Option.map PriceRecord.predicted_value ((predict_price st parsed c1 sinkP).2) =
      Option.map PriceRecord.predicted_value ((predict_price st parsed c2 sinkP).2)) ∧
    (Option.map PriceRecord.input_features ((predict_price st parsed c1 sinkP).2) =
      Option.map PriceRecord.input_features ((predict_price st parsed c2 sinkP).2)) ∧
    (predict_demand st parsed sinkD = predict_demand st parsed sinkD) := by
  cases hpm : st.price_model with
  | none => simp [predict_price, hpm]
  | some model =>
    cases parsed with
    | error e => simp [predict_price, hpm]
    | ok raw =>
      cases hfc : st.feature_columns with
      | none => simp [predict_price, prepare_features_array, hpm, hfc]
      | some cols =>
        simp [predict_price, hpm, hfc, prepare_features_array_some]

/-- C8 counterexample: with the price model loaded, a request body that
fails to parse as an object is answered with status 500 — not a
4xx-class client error — because the parse failure raised inside the
`try` block is caught by the blanket `except Exception` handler that
returns `jsonify({'error': ...}), 500`. -/
theorem malformed_input_counterexample :
    ((predict_price ⟨some (fun _ => 100), none, some ["latitude"], none⟩
        (Except.error "Failed to decode JSON object") (8/10)
        (fun _ => Except.ok none)).1).status = 500 ∧
    ¬(400 ≤ ((predict_price ⟨some (fun _ => 100), none, some ["latitude"], none⟩
        (Except.error "Failed to decode JSON object") (8/10)
        (fun _ => Except.ok none)).1).status ∧
      ((predict_price ⟨some (fun _ => 100), none, some ["latitude"], none⟩
        (Except.error "Failed to decode JSON object") (8/10)
        (fun _ => Except.ok none)).1).status < 500) := by
  refine ⟨rfl, ?_⟩
  rintro ⟨-, h⟩
  exact absurd h (by decide)

/-- C8 amended: when the raw request body is not parseable as an object,
both prediction endpoints surface the failure as a structured error
result with status 500 — the same server-error status used when a model
is missing — not as a distinct 4xx client error. -/
theorem malformed_input_server_error (st : ServerState) (pmodel dmodel : List ℚ → ℚ)
    (hp : st.price_model = some pmodel) (hd : st.demand_model = some dmodel)
    (e : String) (conf : ℚ) (sinkP : PriceRecord → Except String (Option Nat))
    (sinkD : DemandRecord → Except String (Option Nat)) :
    (predict_price st (Except.error e) conf sinkP).1 = ⟨500, none, some e⟩ ∧
    (predict_demand st (Except.error e) sinkD).1 = ⟨500, none, some e⟩ ∧
    ((predict_price st (Except.error e) conf sinkP).1).status =
      ((predict_price ⟨none, st.demand_model, st.feature_columns, st.metadata⟩
          (Except.error e) conf sinkP).1).status := by
  refine ⟨?_, ?_, ?_⟩
  · simp [predict_price, hp]
  · simp [predict_demand, hd]
  · simp [predict_price, hp]

/-- Witness for C8's amended statement at a concrete state and parse
error. -/
theorem malformed_input_server_error_witness :
    (predict_price ⟨some (fun _ => 100), some (fun _ => 1), some ["latitude"], none⟩
        (Except.error "415 Unsupported Media Type") (8/10) (fun _ => Except.ok none)).1 =
      ⟨500, none, some "415 Unsupported Media Type"⟩ ∧
    (predict_demand ⟨some (fun _ => 100), some (fun _ => 1), some ["latitude"], none⟩
        (Except.error "415 Unsupported Media Type") (fun _ => Except.ok none)).1 =
      ⟨500, none, some "415 Unsupported Media Type"⟩ ∧
    ((predict_price ⟨some (fun _ => 100), some (fun _ => 1), some ["latitude"], none⟩
        (Except.error "415 Unsupported Media Type") (8/10) (fun _ => Except.ok none)).1).status =
      ((predict_price ⟨none, some (fun _ => 1), some ["latitude"], none⟩
        (Except.error "415 Unsupported Media Type") (8/10) (fun _ => Except.ok none)).1).status :=
  malformed_input_server_error
    ⟨some (fun _ => 100), some (fun _ => 1), some ["latitude"], none⟩
    (fun _ => 100) (fun _ => 1) rfl rfl "415 Unsupported Media Type" (8/10)
    (fun _ => Except.ok none) (fun _ => Except.ok none)

/-- C1 (code defect): the serving-time and training-time neighbourhood
frequency tables are not identical.  The serving `engineer_features`
hardcodes `{'Harlem': 0.054, ...}` while the training
`engineer_features` derives its table from the training dataframe with
`value_counts(normalize=True)`.  On a dataframe of two rows with
neighbourhoods Harlem and Williamsburg, training encodes the Harlem row
as `0.5`, while serving encodes the very same listing as `0.054`. -/
theorem neighbourhood_table_drift :
    train_neighbourhood_encoded
        [⟨"Private room", "Manhattan", "Harlem", 1, 0, 0, 365⟩,
         ⟨"Private room", "Brooklyn", "Williamsburg", 1, 0, 0, 365⟩]
        ⟨"Private room", "Manhattan", "Harlem", 1, 0, 0, 365⟩ = 1/2 ∧
    (engineer_features ⟨none, none, some 1, some 0, some 0, none, some 365,
        some "Private room", some "Manhattan", some "Harlem"⟩).lookup
      "neighbourhood_encoded" = some (54/1000) ∧
    (1/2 : ℚ) ≠ 54/1000 := by
  refine ⟨?_, ?_, by norm_num⟩
  · simp [train_neighbourhood_encoded, value_counts_normalize, List.filter]
  · simp [engineer_features, neighbourhood_freq, List.lookup]
